import Mathlib

/-!
Verification development for the rusticata snmp-parser repository.

The repository decodes SNMP v1 / v2c / v3 messages from BER/DER-encoded
byte buffers.  We shallowly embed the decoding pipeline:

* a model of the external BER primitive layer (the der_parser crate),
  following the contract stated in the specification (header reading,
  definite lengths only, typed content readers, u32/u64 narrowing with
  overflow failure);
* the functions of src/snmp.rs (v1 / v2c messages, PDU dispatch,
  object syntax, varbinds);
* the functions of src/snmpv3.rs (DerObject-level from_der decoders and
  the byte-level parse_snmp_v3 entry point).  Rust slice indexing
  msg_flags[0] is modelled by an explicit panic outcome, so that
  out-of-bounds accesses are observable;
* the function of src/usm.rs (USM security parameters).

Bytes are lists of Nat; machine integers are Nat with explicit bounds
checks where the source narrows.
-/

namespace SnmpSpec

abbrev Bytes := List Nat

/-- Big-endian accumulation of a byte list into a Nat, as the
der_parser bytes_to_u64 helper does. -/
def bytesToNat (l : Bytes) : Nat :=
  l.foldl (fun a b => a * 256 + b) 0

/-- UTF-8 validity check modelling Rust str::from_utf8 (RFC 3629:
no overlong forms, no surrogates, nothing above U+10FFFF). -/
def validUtf8 : Bytes → Bool
  | [] => true
  | b :: rest =>
    if b < 128 then validUtf8 rest
    else if 194 ≤ b && b ≤ 223 then
      match rest with
      | c1 :: r => (128 ≤ c1 && c1 ≤ 191) && validUtf8 r
      | [] => false
    else if b == 224 then
      match rest with
      | c1 :: c2 :: r => (160 ≤ c1 && c1 ≤ 191) && (128 ≤ c2 && c2 ≤ 191) && validUtf8 r
      | _ => false
    else if 225 ≤ b && b ≤ 236 then
      match rest with
      | c1 :: c2 :: r => (128 ≤ c1 && c1 ≤ 191) && (128 ≤ c2 && c2 ≤ 191) && validUtf8 r
      | _ => false
    else if b == 237 then
      match rest with
      | c1 :: c2 :: r => (128 ≤ c1 && c1 ≤ 159) && (128 ≤ c2 && c2 ≤ 191) && validUtf8 r
      | _ => false
    else if 238 ≤ b && b ≤ 239 then
      match rest with
      | c1 :: c2 :: r => (128 ≤ c1 && c1 ≤ 191) && (128 ≤ c2 && c2 ≤ 191) && validUtf8 r
      | _ => false
    else if b == 240 then
      match rest with
      | c1 :: c2 :: c3 :: r =>
        (144 ≤ c1 && c1 ≤ 191) && (128 ≤ c2 && c2 ≤ 191) && (128 ≤ c3 && c3 ≤ 191) && validUtf8 r
      | _ => false
    else if 241 ≤ b && b ≤ 243 then
      match rest with
      | c1 :: c2 :: c3 :: r =>
        (128 ≤ c1 && c1 ≤ 191) && (128 ≤ c2 && c2 ≤ 191) && (128 ≤ c3 && c3 ≤ 191) && validUtf8 r
      | _ => false
    else if b == 244 then
      match rest with
      | c1 :: c2 :: c3 :: r =>
        (128 ≤ c1 && c1 ≤ 143) && (128 ≤ c2 && c2 ≤ 191) && (128 ≤ c3 && c3 ≤ 191) && validUtf8 r
      | _ => false
    else false

/-- A decoded BER tag-length header: class (0 universal, 1 application,
2 context-specific, 3 private), the constructed bit, the tag number and
the definite content length. -/
structure BerHeader where
  cls : Nat
  constructed : Bool
  tag : Nat
  len : Nat
deriving Repr, DecidableEq

/-- Is the header of APPLICATION class, as BerObjectHeader.is_application. -/
def BerHeader.is_application (h : BerHeader) : Bool := h.cls == 1

/-- Structural failures of the BER primitive layer. Incomplete input
(nom Err.Incomplete) is folded in as one failure kind; no claim
distinguishes it from other failures. -/
inductive BerErr where
  | incomplete
  | invalidLength
  | invalidTag
  | invalidOid
  | berTypeError
  | berValueError
  | integerTooLarge
  | utf8Error
  | unsupported
deriving Repr, DecidableEq

/-- Result of a byte-level BER parser: remaining input plus value, or a
structural failure. -/
inductive PR (α : Type) where
  | ok : Bytes → α → PR α
  | fail : BerErr → PR α
deriving Repr

/-- Did the parse succeed. -/
def PR.isOk {α : Type} : PR α → Bool
  | .ok _ _ => true
  | .fail _ => false

/-- Read a BER identifier octet and a definite length
(ber_read_element_header of der_parser).  Indefinite lengths are
rejected, long-form lengths of more than 8 length bytes are rejected,
per the BER contract in the specification. -/
def readHeader : Bytes → PR BerHeader
  | [] => .fail .incomplete
  | b :: rest =>
    let cls := b / 64
    let constructed := (b / 32) % 2 == 1
    let tag := b % 32
    match rest with
    | [] => .fail .incomplete
    | l :: r2 =>
      if l < 128 then .ok r2 ⟨cls, constructed, tag, l⟩
      else if l == 128 then .fail .invalidLength
      else
        let n := l - 128
        if 8 < n then .fail .invalidLength
        else if r2.length < n then .fail .incomplete
        else .ok (r2.drop n) ⟨cls, constructed, tag, bytesToNat (r2.take n)⟩

/-- Decode OID content bytes into components (first octet packs the
first two arcs), failing on a dangling high-bit continuation. -/
def decodeOidLoop : Bytes → Nat → Option (List Nat)
  | [], cur => if cur == 0 then some [] else none
  | b :: r, cur =>
    let v := cur * 128 + b % 128
    if b < 128 then
      match decodeOidLoop r 0 with
      | some l => some (v :: l)
      | none => none
    else
      if v == 0 then none else decodeOidLoop r v

/-- Decode a full OID content slice to its arc list. -/
def decodeOid (content : Bytes) : Option (List Nat) :=
  match decodeOidLoop content 0 with
  | none => none
  | some [] => some []
  | some (c0 :: rest) =>
    if c0 < 40 then some (0 :: c0 :: rest)
    else if c0 < 80 then some (1 :: (c0 - 40) :: rest)
    else some (2 :: (c0 - 80) :: rest)

/-- Decoded BER content (BerObjectContent of der_parser); sequence
items keep contents only, since the decoders in this repository never
inspect the headers of sequence items. -/
inductive BerContent where
  | integer (raw : Bytes)
  | bitString (pad : Nat) (data : Bytes)
  | octetString (s : Bytes)
  | null
  | oid (ids : List Nat)
  | seq (items : List BerContent)
  | unknown (tag : Nat) (s : Bytes)
deriving Repr

/-- Narrow raw big-endian INTEGER content to u32, failing on overflow
(as_u32 of der_parser). -/
def rawAsU32 (raw : Bytes) : Option Nat :=
  if 8 < raw.length then none
  else
    let v := bytesToNat raw
    if v < 4294967296 then some v else none

/-- Narrow raw big-endian INTEGER content to u64, failing on overflow
(as_u64 of der_parser). -/
def rawAsU64 (raw : Bytes) : Option Nat :=
  if 8 < raw.length then none else some (bytesToNat raw)

/-- DerObjectContent.as_u32. -/
def BerContent.as_u32 : BerContent → Option Nat
  | .integer raw => rawAsU32 raw
  | _ => none

/-- DerObjectContent.as_slice: octet strings, bit strings and unknown
contents expose their raw byte slice. -/
def BerContent.as_slice : BerContent → Option Bytes
  | .octetString s => some s
  | .bitString _ d => some d
  | .unknown _ s => some s
  | _ => none

/-- Read the content of a primitive element, coerced to the given tag
number (the non-recursive cases of ber_read_element_content_as of
der_parser).  Universal tag numbers 2, 3, 4, 5 and 6 are interpreted;
any other tag number yields an uninterpreted content slice. -/
def berReadPrimContent (content : Bytes) (tag : Nat) (constructed : Bool) :
    Except BerErr BerContent :=
  match tag with
  | 2 => if constructed then .error .unsupported else .ok (.integer content)
  | 3 =>
    if constructed then .error .unsupported
    else match content with
      | [] => .error .invalidLength
      | p :: d => .ok (.bitString p d)
  | 4 => if constructed then .error .unsupported else .ok (.octetString content)
  | 5 => if content.length == 0 then .ok .null else .error .invalidLength
  | 6 =>
    match decodeOid content with
    | some ids => .ok (.oid ids)
    | none => .error .invalidOid
  | t => .ok (.unknown t content)

/-- Parse the concatenated items of a SEQUENCE body until it is
exhausted (der_parser parse_der applied to each item of a constructed
sequence).  `fuel` bounds the nesting depth of inner sequences. -/
def berSeqItems : Nat → Bytes → PR (List BerContent)
  | _, [] => .ok [] []
  | 0, _ :: _ => .fail .incomplete
  | fuel + 1, i =>
    match readHeader i with
    | .fail e => .fail e
    | .ok rest hdr =>
      if rest.length < hdr.len then .fail .incomplete
      else
        let content := rest.take hdr.len
        let rem := rest.drop hdr.len
        let inner : Except BerErr BerContent :=
          if hdr.cls != 0 then .ok (.unknown hdr.tag content)
          else if hdr.tag == 16 then
            match berSeqItems fuel content with
            | .ok _ items => .ok (.seq items)
            | .fail e => .error e
          else berReadPrimContent content hdr.tag hdr.constructed
        match inner with
        | .error e => .fail e
        | .ok c =>
          match berSeqItems fuel rem with
          | .fail e => .fail e
          | .ok rem2 cs => .ok rem2 (c :: cs)

/-- Read the content of an element whose header was already read,
coerced to the given tag number (ber_read_element_content_as of
der_parser). -/
def berReadContentAs (fuel : Nat) (i : Bytes) (tag : Nat) (len : Nat)
    (constructed : Bool) : PR BerContent :=
  if i.length < len then .fail .incomplete
  else
    let content := i.take len
    let rem := i.drop len
    if tag == 16 then
      match berSeqItems fuel content with
      | .ok _ items => .ok rem (.seq items)
      | .fail e => .fail e
    else
      match berReadPrimContent content tag constructed with
      | .ok c => .ok rem c
      | .error e => .fail e

/-- Generic ANY parser (parse_der / parse_ber of der_parser): read a
header, then its content; a non-universal class yields an uninterpreted
content slice. -/
def parseDerAny (fuel : Nat) (i : Bytes) : PR (BerHeader × BerContent) :=
  match readHeader i with
  | .fail e => .fail e
  | .ok rest hdr =>
    if rest.length < hdr.len then .fail .incomplete
    else if hdr.cls != 0 then
      .ok (rest.drop hdr.len) (hdr, .unknown hdr.tag (rest.take hdr.len))
    else
      match berReadContentAs fuel rest hdr.tag hdr.len hdr.constructed with
      | .fail e => .fail e
      | .ok rem c => .ok rem (hdr, c)

/-- Typed primitive parser for an INTEGER element (parse_der_integer /
parse_ber_integer): the tag must be 2 and the element primitive. -/
def parseDerIntegerRaw (i : Bytes) : PR Bytes :=
  match readHeader i with
  | .fail e => .fail e
  | .ok rest hdr =>
    if hdr.tag != 2 || hdr.constructed then .fail .invalidTag
    else if rest.length < hdr.len then .fail .incomplete
    else .ok (rest.drop hdr.len) (rest.take hdr.len)

/-- Typed primitive parser for an OCTET STRING element
(parse_der_octetstring / parse_ber_octetstring), returning the content
slice. -/
def parseDerOctetString (i : Bytes) : PR Bytes :=
  match readHeader i with
  | .fail e => .fail e
  | .ok rest hdr =>
    if hdr.tag != 4 || hdr.constructed then .fail .invalidTag
    else if rest.length < hdr.len then .fail .incomplete
    else .ok (rest.drop hdr.len) (rest.take hdr.len)

/-- Typed parser for an OBJECT IDENTIFIER element followed by
as_oid_val: yields the arc list (parse_ber_oid + as_oid_val). -/
def parse_ber_oid_val (i : Bytes) : PR (List Nat) :=
  match readHeader i with
  | .fail e => .fail e
  | .ok rest hdr =>
    if hdr.tag != 6 || hdr.constructed then .fail .invalidTag
    else if rest.length < hdr.len then .fail .incomplete
    else
      match decodeOid (rest.take hdr.len) with
      | some ids => .ok (rest.drop hdr.len) ids
      | none => .fail .invalidOid

/-- Parse an INTEGER and narrow it to u32 (parse_ber_u32; also the
map_res of parse_ber_integer with as_u32 used by parse_snmp_v1 — the two
are interchangeable in der_parser). -/
def parse_ber_u32 (i : Bytes) : PR Nat :=
  match parseDerIntegerRaw i with
  | .fail e => .fail e
  | .ok rem raw =>
    match rawAsU32 raw with
    | some v => .ok rem v
    | none => .fail .integerTooLarge

/-- Parse an INTEGER and narrow it to u64 (parse_ber_u64). -/
def parse_ber_u64 (i : Bytes) : PR Nat :=
  match parseDerIntegerRaw i with
  | .fail e => .fail e
  | .ok rem raw =>
    match rawAsU64 raw with
    | some v => .ok rem v
    | none => .fail .integerTooLarge

/-! ## src/snmp.rs: data model -/

/-- PduType newtype over the raw context tag number. -/
structure PduType where
  val : Nat
deriving Repr, DecidableEq

/-- TrapType newtype over a u8. -/
structure TrapType where
  val : Nat
deriving Repr, DecidableEq

/-- ErrorStatus newtype over a u32. -/
structure ErrorStatus where
  val : Nat
deriving Repr, DecidableEq

/-- NetworkAddress: only the Internet (IPv4) choice exists. -/
inductive NetworkAddress where
  | iPv4 (a b c d : Nat)
deriving Repr, DecidableEq

/-- ObjectSyntax of src/snmp.rs.  The source constructor named after
the SMI Opaque type is called `opaqueData` here; `number` and
`unknownSimple` store the decoded BER content like the source stores a
BerObject. -/
inductive ObjectSyntax where
  | number (raw : Bytes)
  | string (s : Bytes)
  | object (oid : List Nat)
  | bitString (pad : Nat) (data : Bytes)
  | empty
  | unknownSimple (c : BerContent)
  | ipAddress (addr : NetworkAddress)
  | counter32 (v : Nat)
  | gauge32 (v : Nat)
  | timeTicks (v : Nat)
  | opaqueData (s : Bytes)
  | nsapAddress (s : Bytes)
  | counter64 (v : Nat)
  | uInteger32 (v : Nat)
  | unknownApplication (tag : Nat) (s : Bytes)
deriving Repr

/-- A decoded variable binding: object name and value. -/
structure SnmpVariable where
  oid : List Nat
  val : ObjectSyntax
deriving Repr

/-- Generic request/response PDU body. -/
structure SnmpGenericPdu where
  pdu_type : PduType
  req_id : Nat
  err : ErrorStatus
  err_index : Nat
  var : List SnmpVariable
deriving Repr

/-- GetBulkRequest PDU body. -/
structure SnmpBulkPdu where
  req_id : Nat
  non_repeaters : Nat
  max_repetitions : Nat
  var : List SnmpVariable
deriving Repr

/-- Trap-v1 PDU body. -/
structure SnmpTrapPdu where
  enterprise : List Nat
  agent_addr : NetworkAddress
  generic_trap : TrapType
  specific_trap : Nat
  timestamp : Nat
  var : List SnmpVariable
deriving Repr

/-- The three PDU shapes. -/
inductive SnmpPdu where
  | generic (p : SnmpGenericPdu)
  | bulk (p : SnmpBulkPdu)
  | trapV1 (p : SnmpTrapPdu)
deriving Repr

/-- An SNMPv1 or SNMPv2c message; the community string is kept as its
validated UTF-8 byte sequence. -/
structure SnmpMessage where
  version : Nat
  community : Bytes
  pdu : SnmpPdu
deriving Repr

/-- The error taxonomy of src/error.rs; the BerError variant carries
the pass-through structural failure of the BER layer. -/
inductive SnmpError where
  | invalidMessage
  | invalidVersion
  | invalidPduType
  | invalidPdu
  | invalidHeaderData
  | invalidScopedPduData
  | invalidSecurityModel
  | nomError
  | berError (e : BerErr)
deriving Repr, DecidableEq

/-- Result of an entry-point parser (IResult with SnmpError). -/
inductive SR (α : Type) where
  | ok : Bytes → α → SR α
  | fail : SnmpError → SR α
deriving Repr

/-- upgrade_error: re-wrap a BER-level failure as SnmpError::BerError. -/
def upgradeBer {α : Type} : PR α → SR α
  | .ok r v => .ok r v
  | .fail e => .fail (.berError e)

/-! ## src/snmp.rs: parsers -/

/-- The parse_der_struct!(TAG Sequence, ...) wrapper used throughout the
source: the header must be constructed with tag number 16 (the class is
not checked by the macro), then the body parser runs on exactly the
content bytes; bytes the body parser leaves over INSIDE the content are
discarded, as flat_take does. -/
def parseDerStructSeq {α : Type} (i : Bytes) (body : Bytes → PR α) : PR α :=
  match readHeader i with
  | .fail e => .fail e
  | .ok rest hdr =>
    if hdr.constructed && hdr.tag == 16 then
      if rest.length < hdr.len then .fail .incomplete
      else
        match body (rest.take hdr.len) with
        | .fail e => .fail e
        | .ok _ v => .ok (rest.drop hdr.len) v
    else .fail .invalidTag

/-- parse_objectsyntax of src/snmp.rs: APPLICATION-class tags map to the
SMI application types; otherwise a zero-length element is Empty before
the tag is inspected, and the content is read according to the
(possibly context-specific) tag number. -/
def parse_objectsyntax (i : Bytes) : PR ObjectSyntax :=
  match readHeader i with
  | .fail e => .fail e
  | .ok rem hdr =>
    if hdr.is_application then
      match hdr.tag with
      | 0 =>
        match berReadContentAs i.length rem 4 hdr.len hdr.constructed with
        | .fail e => .fail e
        | .ok r (.octetString [a, b, c, d]) => .ok r (.ipAddress (.iPv4 a b c d))
        | .ok _ _ => .fail .invalidTag
      | 1 =>
        match berReadContentAs i.length rem 2 hdr.len hdr.constructed with
        | .fail e => .fail e
        | .ok r c =>
          match c.as_u32 with
          | some v => .ok r (.counter32 v)
          | none => .fail .integerTooLarge
      | 2 =>
        match berReadContentAs i.length rem 2 hdr.len hdr.constructed with
        | .fail e => .fail e
        | .ok r c =>
          match c.as_u32 with
          | some v => .ok r (.gauge32 v)
          | none => .fail .integerTooLarge
      | 3 =>
        match berReadContentAs i.length rem 2 hdr.len hdr.constructed with
        | .fail e => .fail e
        | .ok r c =>
          match c.as_u32 with
          | some v => .ok r (.timeTicks v)
          | none => .fail .integerTooLarge
      | 4 =>
        if rem.length < hdr.len then .fail .incomplete
        else .ok (rem.drop hdr.len) (.opaqueData (rem.take hdr.len))
      | 5 =>
        if rem.length < hdr.len then .fail .incomplete
        else .ok (rem.drop hdr.len) (.nsapAddress (rem.take hdr.len))
      | 6 =>
        match berReadContentAs i.length rem 2 hdr.len hdr.constructed with
        | .fail e => .fail e
        | .ok r (.integer raw) =>
          match rawAsU64 raw with
          | some v => .ok r (.counter64 v)
          | none => .fail .integerTooLarge
        | .ok _ _ => .fail .berTypeError
      | 7 =>
        match berReadContentAs i.length rem 2 hdr.len hdr.constructed with
        | .fail e => .fail e
        | .ok r c =>
          match c.as_u32 with
          | some v => .ok r (.uInteger32 v)
          | none => .fail .integerTooLarge
      | t =>
        if rem.length < hdr.len then .fail .incomplete
        else .ok (rem.drop hdr.len) (.unknownApplication t (rem.take hdr.len))
    else
      if hdr.len == 0 then .ok rem .empty
      else
        match berReadContentAs i.length rem hdr.tag hdr.len hdr.constructed with
        | .fail e => .fail e
        | .ok r c =>
          match c with
          | .integer raw => .ok r (.number raw)
          | .octetString s => .ok r (.string s)
          | .oid o => .ok r (.object o)
          | .bitString a s => .ok r (.bitString a s)
          | .null => .ok r .empty
          | c => .ok r (.unknownSimple c)

/-- The body of a VarBind SEQUENCE: an OID followed by the value parsed
by parse_objectsyntax; the eof check present in earlier revisions is
commented out in the source. -/
def parse_varbind_inner (body : Bytes) : PR SnmpVariable :=
  match parse_ber_oid_val body with
  | .fail e => .fail e
  | .ok r1 oid =>
    match parse_objectsyntax r1 with
    | .fail e => .fail e
    | .ok r2 val => .ok r2 ⟨oid, val⟩

/-- parse_varbind of src/snmp.rs. -/
def parse_varbind (i : Bytes) : PR SnmpVariable :=
  parseDerStructSeq i parse_varbind_inner

/-- many0!(complete!(parse_varbind)): parse varbinds while the element
parser succeeds, returning the collected values and the bytes at which
it stopped. -/
def many0Varbind : Nat → Bytes → List SnmpVariable × Bytes
  | 0, i => ([], i)
  | fuel + 1, i =>
    match parse_varbind i with
    | .fail _ => ([], i)
    | .ok rem v =>
      let p := many0Varbind fuel rem
      (v :: p.1, p.2)

/-- parse_varbind_list of src/snmp.rs: a SEQUENCE wrapper around
many0 of parse_varbind; the eof check is commented out in the source,
so bytes left inside the list body are discarded. -/
def parse_varbind_list (i : Bytes) : PR (List SnmpVariable) :=
  parseDerStructSeq i fun body =>
    let p := many0Varbind (body.length + 1) body
    .ok p.2 p.1

/-- parse_networkaddress of src/snmp.rs: an ANY whose header must be
APPLICATION tag 0 with exactly four content bytes. -/
def parse_networkaddress (i : Bytes) : PR NetworkAddress :=
  match parseDerAny i.length i with
  | .fail e => .fail e
  | .ok rem (hdr, c) =>
    if hdr.tag != 0 || hdr.cls != 1 then .fail .invalidTag
    else
      match c with
      | .unknown _ [a, b, c, d] => .ok rem (.iPv4 a b c d)
      | _ => .fail .invalidTag

/-- parse_timeticks of src/snmp.rs: an IMPLICIT tag-3 element whose
content is read as a primitive INTEGER and narrowed to u32. -/
def parse_timeticks (i : Bytes) : PR Nat :=
  match readHeader i with
  | .fail e => .fail e
  | .ok rest hdr =>
    if hdr.tag != 3 then .fail .invalidTag
    else if rest.length < hdr.len then .fail .incomplete
    else
      match rawAsU32 (rest.take hdr.len) with
      | some v => .ok (rest.drop hdr.len) v
      | none => .fail .integerTooLarge

/-- parse_snmp_v1_generic_pdu: request id, error status, error index,
varbind list. -/
def parse_snmp_v1_generic_pdu (pdu : Bytes) (tag : Nat) : PR SnmpPdu :=
  match parse_ber_u32 pdu with
  | .fail e => .fail e
  | .ok r1 req_id =>
    match parse_ber_u32 r1 with
    | .fail e => .fail e
    | .ok r2 err =>
      match parse_ber_u32 r2 with
      | .fail e => .fail e
      | .ok r3 err_index =>
        match parse_varbind_list r3 with
        | .fail e => .fail e
        | .ok r4 var => .ok r4 (.generic ⟨⟨tag⟩, req_id, ⟨err⟩, err_index, var⟩)

/-- parse_snmp_v1_bulk_pdu: request id, non-repeaters, max-repetitions,
varbind list. -/
def parse_snmp_v1_bulk_pdu (pdu : Bytes) : PR SnmpPdu :=
  match parse_ber_u32 pdu with
  | .fail e => .fail e
  | .ok r1 req_id =>
    match parse_ber_u32 r1 with
    | .fail e => .fail e
    | .ok r2 nr =>
      match parse_ber_u32 r2 with
      | .fail e => .fail e
      | .ok r3 mr =>
        match parse_varbind_list r3 with
        | .fail e => .fail e
        | .ok r4 var => .ok r4 (.bulk ⟨req_id, nr, mr, var⟩)

/-- parse_snmp_v1_trap_pdu: enterprise OID, agent address, generic trap
(decoded as u32 and truncated with `as u8`, modelled by % 256), specific
trap, timestamp, varbind list. -/
def parse_snmp_v1_trap_pdu (pdu : Bytes) : PR SnmpPdu :=
  match parse_ber_oid_val pdu with
  | .fail e => .fail e
  | .ok r1 enterprise =>
    match parse_networkaddress r1 with
    | .fail e => .fail e
    | .ok r2 agent_addr =>
      match parse_ber_u32 r2 with
      | .fail e => .fail e
      | .ok r3 generic_trap =>
        match parse_ber_u32 r3 with
        | .fail e => .fail e
        | .ok r4 specific_trap =>
          match parse_timeticks r4 with
          | .fail e => .fail e
          | .ok r5 timestamp =>
            match parse_varbind_list r5 with
            | .fail e => .fail e
            | .ok r6 var =>
              .ok r6 (.trapV1 ⟨enterprise, agent_addr, ⟨generic_trap % 256⟩,
                specific_trap, timestamp, var⟩)

/-- parse_snmp_v1_pdu of src/snmp.rs: dispatch on the tag number of the
PDU header; tags 0-3 are generic shapes, 4 is the v1 trap, anything else
is rejected with BerValueError.  The body parsers receive the bytes
following the header. -/
def parse_snmp_v1_pdu (i : Bytes) : PR SnmpPdu :=
  match readHeader i with
  | .fail e => .fail e
  | .ok rem hdr =>
    match hdr.tag with
    | 0 | 1 | 2 | 3 => parse_snmp_v1_generic_pdu rem hdr.tag
    | 4 => parse_snmp_v1_trap_pdu rem
    | _ => .fail .berValueError

/-- parse_snmp_v2c_pdu of src/snmp.rs: tags 0-3 and 6-8 are generic,
5 is bulk, 4 is the v1 trap; anything else is rejected with
BerValueError. -/
def parse_snmp_v2c_pdu (i : Bytes) : PR SnmpPdu :=
  match readHeader i with
  | .fail e => .fail e
  | .ok rem hdr =>
    match hdr.tag with
    | 0 | 1 | 2 | 3 | 6 | 7 | 8 => parse_snmp_v1_generic_pdu rem hdr.tag
    | 5 => parse_snmp_v1_bulk_pdu rem
    | 4 => parse_snmp_v1_trap_pdu rem
    | _ => .fail .berValueError

/-- Body of the outer v1 message sequence: INTEGER version with
custom_check version != 0, community octet string validated as UTF-8,
then the PDU. -/
def parse_snmp_v1_content (body : Bytes) : PR SnmpMessage :=
  match parse_ber_u32 body with
  | .fail e => .fail e
  | .ok r1 version =>
    if version != 0 then .fail .berValueError
    else
      match parseDerOctetString r1 with
      | .fail e => .fail e
      | .ok r2 s =>
        if validUtf8 s then
          match parse_snmp_v1_pdu r2 with
          | .fail e => .fail e
          | .ok r3 pdu => .ok r3 ⟨version, s, pdu⟩
        else .fail .utf8Error

/-- parse_snmp_v1 of src/snmp.rs: the outer SEQUENCE wrapper with the
BER failure upgraded to SnmpError::BerError. -/
def parse_snmp_v1 (i : Bytes) : SR SnmpMessage :=
  upgradeBer (parseDerStructSeq i parse_snmp_v1_content)

/-- Body of the outer v2c message sequence: like v1 with
custom_check version != 1 and the v2c PDU dispatcher. -/
def parse_snmp_v2c_content (body : Bytes) : PR SnmpMessage :=
  match parse_ber_u32 body with
  | .fail e => .fail e
  | .ok r1 version =>
    if version != 1 then .fail .berValueError
    else
      match parseDerOctetString r1 with
      | .fail e => .fail e
      | .ok r2 s =>
        if validUtf8 s then
          match parse_snmp_v2c_pdu r2 with
          | .fail e => .fail e
          | .ok r3 pdu => .ok r3 ⟨version, s, pdu⟩
        else .fail .utf8Error

/-- parse_snmp_v2c of src/snmp.rs. -/
def parse_snmp_v2c (i : Bytes) : SR SnmpMessage :=
  upgradeBer (parseDerStructSeq i parse_snmp_v2c_content)

/-! ## src/snmpv3.rs: data model and DerObject-level decoders -/

/-- HeaderData of src/snmpv3.rs. -/
structure HeaderData where
  msg_id : Nat
  msg_max_size : Nat
  msg_flags : Nat
  msg_security_model : Nat
deriving Repr, DecidableEq

/-- msgFlags bit 0: authentication. -/
def HeaderData.is_authenticated (h : HeaderData) : Bool := h.msg_flags &&& 1 != 0

/-- msgFlags bit 1: privacy. -/
def HeaderData.is_encrypted (h : HeaderData) : Bool := h.msg_flags &&& 2 != 0

/-- msgFlags bit 2: reportable. -/
def HeaderData.is_reportable (h : HeaderData) : Bool := h.msg_flags &&& 4 != 0

/-- A plaintext scoped PDU; data keeps the raw inner bytes, as in the
source revision under verification. -/
structure ScopedPdu where
  ctx_engine_id : Bytes
  ctx_engine_name : Bytes
  data : Bytes
deriving Repr, DecidableEq

/-- ScopedPduData: plaintext or opaque encrypted bytes. -/
inductive ScopedPduData where
  | plaintext (p : ScopedPdu)
  | encrypted (s : Bytes)
deriving Repr, DecidableEq

/-- SnmpV3Message of src/snmpv3.rs; security_params is the raw content
slice of the msgSecurityParameters OCTET STRING. -/
structure SnmpV3Message where
  version : Nat
  header_data : HeaderData
  security_params : Bytes
  data : ScopedPduData
deriving Repr, DecidableEq

/-- Outcome of a Rust function returning Result, with an extra outcome
for a panic: Rust slice indexing out of bounds aborts instead of
returning, and the model makes that observable. -/
inductive RR (α : Type) where
  | ok : α → RR α
  | err : SnmpError → RR α
  | panicked
deriving Repr

/-- HeaderData::from_der of src/snmpv3.rs: a four-element sequence
msgID, msgMaxSize, msgFlags, msgSecurityModel.  The source indexes
msg_flags[0] without checking the length of the flags slice, so an
empty msgFlags OCTET STRING panics. -/
def HeaderData.from_der (c : BerContent) : RR HeaderData :=
  match c with
  | .seq [v0, v1, v2, v3] =>
    match v0.as_u32 with
    | none => .err .invalidHeaderData
    | some msg_id =>
      match v1.as_u32 with
      | none => .err .invalidHeaderData
      | some msg_max_size =>
        match v2.as_slice with
        | none => .err .invalidHeaderData
        | some flags =>
          match v3.as_u32 with
          | none => .err .invalidHeaderData
          | some msg_security_model =>
            match flags with
            | [] => .panicked
            | f :: _ => .ok ⟨msg_id, msg_max_size, f, msg_security_model⟩
  | .seq _ => .err .invalidHeaderData
  | _ => .err .invalidMessage

/-- ScopedPduData::from_der of src/snmpv3.rs: a three-element sequence
of slices, always yielding the Plaintext variant. -/
def ScopedPduData.from_der (c : BerContent) : RR ScopedPduData :=
  match c with
  | .seq [v0, v1, v2] =>
    match v0.as_slice with
    | none => .err .invalidScopedPduData
    | some cei =>
      match v1.as_slice with
      | none => .err .invalidScopedPduData
      | some cen =>
        match v2.as_slice with
        | none => .err .invalidScopedPduData
        | some d => .ok (.plaintext ⟨cei, cen, d⟩)
  | .seq _ => .err .invalidScopedPduData
  | _ => .err .invalidMessage

/-- SnmpV3Message::from_der of src/snmpv3.rs: version integer, header
data, raw security parameters, then scoped PDU data — taken verbatim as
the Encrypted slice when the privacy flag is set, decoded as a
plaintext scoped PDU otherwise.  The source returns an empty remaining
slice on success. -/
def SnmpV3Message.from_der (c : BerContent) : RR (Bytes × SnmpV3Message) :=
  match c with
  | .seq [v0, v1, v2, v3] =>
    match v0.as_u32 with
    | none => .err .invalidMessage
    | some vers =>
      match HeaderData.from_der v1 with
      | .panicked => .panicked
      | .err e => .err e
      | .ok hd =>
        match v2.as_slice with
        | none => .err .invalidMessage
        | some secp =>
          if hd.is_encrypted then
            match v3.as_slice with
            | none => .err .invalidMessage
            | some d => .ok ([], ⟨vers, hd, secp, .encrypted d⟩)
          else
            match ScopedPduData.from_der v3 with
            | .ok spd => .ok ([], ⟨vers, hd, secp, spd⟩)
            | .err e => .err e
            | .panicked => .panicked
  | .seq _ => .err .invalidMessage
  | _ => .err .invalidMessage

/-! ## src/snmpv3.rs: byte-level parsers -/

/-- Result of a byte-level parser that can also panic. -/
inductive VR (α : Type) where
  | ok : Bytes → α → VR α
  | fail : SnmpError → VR α
  | panicked
deriving Repr

/-- The byte-level headerdata element of parse_snmp_v3: a universal
SEQUENCE of INTEGER, INTEGER, OCTET STRING, INTEGER, returned as a
decoded sequence content. -/
def parse_snmp_v3_headerdata (i : Bytes) : PR BerContent :=
  match readHeader i with
  | .fail e => .fail e
  | .ok rest hdr =>
    if hdr.cls != 0 || !hdr.constructed || hdr.tag != 16 then .fail .invalidTag
    else if rest.length < hdr.len then .fail .incomplete
    else
      let body := rest.take hdr.len
      match parseDerIntegerRaw body with
      | .fail e => .fail e
      | .ok r1 a =>
        match parseDerIntegerRaw r1 with
        | .fail e => .fail e
        | .ok r2 b =>
          match parseDerOctetString r2 with
          | .fail e => .fail e
          | .ok r3 fl =>
            match parseDerIntegerRaw r3 with
            | .fail e => .fail e
            | .ok r4 m =>
              if r4.isEmpty then
                .ok (rest.drop hdr.len)
                  (.seq [.integer a, .integer b, .octetString fl, .integer m])
              else .fail .invalidLength

/-- parse_snmp_v3 of src/snmpv3.rs: an outer DER sequence of version
INTEGER, header data, msgSecurityParameters OCTET STRING and an ANY,
handed to SnmpV3Message::from_der.  Note that no check relates the
version integer to 3. -/
def parse_snmp_v3 (i : Bytes) : VR SnmpV3Message :=
  match readHeader i with
  | .fail e => .fail (.berError e)
  | .ok rest hdr =>
    if hdr.cls != 0 || !hdr.constructed || hdr.tag != 16 then .fail (.berError .invalidTag)
    else if rest.length < hdr.len then .fail (.berError .incomplete)
    else
      let body := rest.take hdr.len
      let rem := rest.drop hdr.len
      match parseDerIntegerRaw body with
      | .fail e => .fail (.berError e)
      | .ok r1 vers =>
        match parse_snmp_v3_headerdata r1 with
        | .fail e => .fail (.berError e)
        | .ok r2 hd =>
          match parseDerOctetString r2 with
          | .fail e => .fail (.berError e)
          | .ok r3 secp =>
            match parseDerAny r3.length r3 with
            | .fail e => .fail (.berError e)
            | .ok r4 any =>
              if r4.isEmpty then
                match SnmpV3Message.from_der
                  (.seq [.integer vers, hd, .octetString secp, any.2]) with
                | .ok (_, m) => .ok rem m
                | .err e => .fail e
                | .panicked => .panicked
              else .fail (.berError .invalidLength)

/-! ## src/usm.rs -/

/-- UsmSecurityParameters; the user name is kept as its validated UTF-8
byte sequence. -/
structure UsmSecurityParameters where
  msg_authoritative_engine_id : Bytes
  msg_authoritative_engine_boots : Nat
  msg_authoritative_engine_time : Nat
  msg_user_name : Bytes
  msg_authentication_parameters : Bytes
  msg_privacy_parameters : Bytes
deriving Repr, DecidableEq

/-- parse_usm_security_parameters of src/usm.rs: a SEQUENCE of engine
id, boots, time, user name (UTF-8 validated), authentication and
privacy parameters. -/
def parse_usm_security_parameters (i : Bytes) : PR UsmSecurityParameters :=
  parseDerStructSeq i fun body =>
    match parseDerOctetString body with
    | .fail e => .fail e
    | .ok r1 eng_id =>
      match parse_ber_u32 r1 with
      | .fail e => .fail e
      | .ok r2 eng_b =>
        match parse_ber_u32 r2 with
        | .fail e => .fail e
        | .ok r3 eng_t =>
          match parseDerOctetString r3 with
          | .fail e => .fail e
          | .ok r4 user =>
            if validUtf8 user then
              match parseDerOctetString r4 with
              | .fail e => .fail e
              | .ok r5 auth_p =>
                match parseDerOctetString r5 with
                | .fail e => .fail e
                | .ok r6 priv_p =>
                  .ok r6 ⟨eng_id, eng_b, eng_t, user, auth_p, priv_p⟩
            else .fail .utf8Error

/-! ## Security-parameter dispatch of the generic v3 path -/

/-- Modelled from the spec: the SecurityParameters sum returned by the
v3 message decoder of src/generic.rs.  The type and the dispatcher
parse_secp are referenced by parse_snmp_v3_pdu_content in
src/generic.rs but their definitions are not part of the source tree
under verification. -/
inductive SecurityParameters where
  | usm (u : UsmSecurityParameters)
  | raw (s : Bytes)
deriving Repr, DecidableEq

/-- Modelled from the spec: parse_secp, the dispatcher on
msgSecurityModel used by parse_snmp_v3_pdu_content of src/generic.rs
(definition absent from the source tree).  When the security model is
3 (USM) the inner bytes must parse as UsmSecurityParameters — with
failure mapped to InvalidSecurityModel — and any other model returns
the raw inner bytes verbatim. -/
def parse_secp (i : Bytes) (msg_security_model : Nat) :
    Except SnmpError SecurityParameters :=
  if msg_security_model == 3 then
    match parse_usm_security_parameters i with
    | .ok _ u => .ok (.usm u)
    | .fail _ => .error .invalidSecurityModel
  else .ok (.raw i)

/-! ## Shared lemmas -/

/-- In parse_objectsyntax, any non-APPLICATION element with a zero
length field yields Empty before the tag is inspected. -/
theorem objectsyntax_empty_of_len_zero (i r : Bytes) (hdr : BerHeader)
    (hread : readHeader i = .ok r hdr) (hcls : hdr.is_application = false)
    (hlen : hdr.len = 0) : parse_objectsyntax i = .ok r .empty := by
  unfold parse_objectsyntax
  rw [hread]
  simp [hcls, hlen]

/-! ## Claim C10 -/

/-- C10: for every non-application-class BER element whose length field
is zero, parse_objectsyntax returns ObjectSyntax::Empty before
inspecting the tag — in particular for zero-length OCTET STRING,
INTEGER and context-specific elements. -/
theorem c10_zero_length_non_application_is_empty (i r : Bytes) (hdr : BerHeader)
    (hread : readHeader i = .ok r hdr) (hcls : hdr.is_application = false)
    (hlen : hdr.len = 0) : parse_objectsyntax i = .ok r .empty :=
  objectsyntax_empty_of_len_zero i r hdr hread hcls hlen

/-- Witness for C10 at the zero-length OCTET STRING 04 00. -/
theorem c10_witness : parse_objectsyntax [4, 0] = .ok [] .empty :=
  c10_zero_length_non_application_is_empty [4, 0] [] ⟨0, false, 4, 0⟩ rfl rfl rfl

/-! ## Claim C3 -/

/-- C3 counterexample: the VarBind 30 05 06 01 2b 83 00, whose value
element carries context-specific tag 3, decodes successfully to the
Empty value, while the claim requires any context-specific tag other
than 0, 1, 2 to make decoding fail (and tags 0, 1, 2 to produce
dedicated exception markers, which do not exist in this code). -/
theorem c3_counterexample :
    parse_varbind [48, 5, 6, 1, 43, 131, 0] = .ok [] ⟨[1, 3], .empty⟩ := rfl

/-- C3 amended: the second VarBind element is fed straight to
parse_objectsyntax; any non-application element with zero length —
including every context-specific exception-marker encoding — yields
Empty rather than a marker or a failure. -/
theorem c3_varbind_value_amended (body r1 : Bytes) (oid : List Nat) (r2 : Bytes)
    (hdr : BerHeader) (hoid : parse_ber_oid_val body = .ok r1 oid)
    (hread : readHeader r1 = .ok r2 hdr) (hcls : hdr.is_application = false)
    (hlen : hdr.len = 0) :
    parse_varbind_inner body = .ok r2 ⟨oid, .empty⟩ := by
  unfold parse_varbind_inner
  simp [hoid, objectsyntax_empty_of_len_zero r1 r2 hdr hread hcls hlen]

/-- Witness for the amended C3 at the body 06 01 2b 80 00 (context tag
0, the noSuchObject encoding). -/
theorem c3_witness : parse_varbind_inner [6, 1, 43, 128, 0] = .ok [] ⟨[1, 3], .empty⟩ :=
  c3_varbind_value_amended [6, 1, 43, 128, 0] [128, 0] [1, 3] [] ⟨2, false, 0, 0⟩
    rfl rfl rfl rfl

/-! ## Claim C6 -/

/-- C6: HeaderData::from_der never checks that the msgFlags OCTET
STRING holds exactly one byte: with zero bytes the msg_flags[0] index
panics instead of returning InvalidHeaderData, and with two bytes the
decoder succeeds on the first byte instead of failing. -/
theorem c6_msgflags_length_unchecked :
    HeaderData.from_der
      (.seq [.integer [0], .integer [0], .octetString [], .integer [0]]) = .panicked ∧
    HeaderData.from_der
      (.seq [.integer [0], .integer [0], .octetString [7, 7], .integer [0]]) =
        .ok ⟨0, 0, 7, 0⟩ :=
  ⟨rfl, rfl⟩

/-! ## Claim C1 -/

/-- C1: parse_snmp_v3 panics — instead of returning a typed error — on
the well-formed SNMPv3 message whose msgFlags OCTET STRING is empty
(bytes 30 14 02 01 03 30 0b 02 01 00 02 01 00 04 00 02 01 00 04 00
05 00), because HeaderData::from_der indexes msg_flags[0]. -/
theorem c1_parse_snmp_v3_panics_on_empty_msgflags :
    parse_snmp_v3
      [48, 20, 2, 1, 3, 48, 11, 2, 1, 0, 2, 1, 0, 4, 0, 2, 1, 0, 4, 0, 5, 0] =
      .panicked := rfl

/-! ## Claim C8 -/

/-- C8 counterexample: the SNMPv1 message 30 0d 02 01 00 04 06
70 75 62 6c 69 63 a5 00 frames a GetBulkRequest (context tag 5); the
v1 entry point fails, but with the pass-through BerValueError, not
with SnmpError::InvalidPduType as the claim states. -/
theorem c8_counterexample :
    parse_snmp_v1 [48, 13, 2, 1, 0, 4, 6, 112, 117, 98, 108, 105, 99, 165, 0] =
      .fail (.berError .berValueError) ∧
    SnmpError.berError .berValueError ≠ SnmpError.invalidPduType :=
  ⟨rfl, by decide⟩

/-- C8 amended: a PDU header with tag number 5, 6, 7 or 8 makes the v1
PDU dispatcher fail, with the BER-level BerValueError that the caller
wraps as SnmpError::BerError. -/
theorem c8_v1_pdu_tag_gating_amended (i r : Bytes) (hdr : BerHeader)
    (hread : readHeader i = .ok r hdr) (h5 : 5 ≤ hdr.tag) (h8 : hdr.tag ≤ 8) :
    parse_snmp_v1_pdu i = .fail .berValueError := by
  unfold parse_snmp_v1_pdu
  rw [hread]
  have h : hdr.tag = 5 ∨ hdr.tag = 6 ∨ hdr.tag = 7 ∨ hdr.tag = 8 := by omega
  rcases h with h | h | h | h <;> simp [h]

/-- Witness for the amended C8 at the bulk header a5 00. -/
theorem c8_witness : parse_snmp_v1_pdu [165, 0] = .fail .berValueError :=
  c8_v1_pdu_tag_gating_amended [165, 0] [] ⟨2, true, 5, 0⟩ rfl (by decide) (by decide)

/-! ## Claim C9 -/

/-- C9 counterexample: a v1 trap whose generic-trap INTEGER encodes
256 (bytes 02 02 01 00) decodes successfully with TrapType 0; the
claim requires decoding to fail for values outside 0..=255. -/
theorem c9_counterexample :
    parse_snmp_v1
      [48, 34, 2, 1, 0, 4, 6, 112, 117, 98, 108, 105, 99, 164, 21, 6, 1, 43,
       64, 4, 127, 0, 0, 1, 2, 2, 1, 0, 2, 1, 0, 67, 1, 0, 48, 0] =
      .ok [] ⟨0, [112, 117, 98, 108, 105, 99],
        .trapV1 ⟨[1, 3], .iPv4 127 0 0 1, ⟨0⟩, 0, 0, []⟩⟩ := rfl

/-- C9 amended: the generic-trap INTEGER is decoded as a u32 and then
truncated with `as u8`: whatever its value, the trap PDU decodes and
stores TrapType (value mod 256); no range failure occurs. -/
theorem c9_generic_trap_truncated (pdu r1 : Bytes) (ent : List Nat) (r2 : Bytes)
    (addr : NetworkAddress) (r3 : Bytes) (g : Nat) (r4 : Bytes) (st : Nat)
    (r5 : Bytes) (ts : Nat) (r6 : Bytes) (vars : List SnmpVariable)
    (h1 : parse_ber_oid_val pdu = .ok r1 ent)
    (h2 : parse_networkaddress r1 = .ok r2 addr)
    (h3 : parse_ber_u32 r2 = .ok r3 g)
    (h4 : parse_ber_u32 r3 = .ok r4 st)
    (h5 : parse_timeticks r4 = .ok r5 ts)
    (h6 : parse_varbind_list r5 = .ok r6 vars) :
    parse_snmp_v1_trap_pdu pdu =
      .ok r6 (.trapV1 ⟨ent, addr, ⟨g % 256⟩, st, ts, vars⟩) := by
  unfold parse_snmp_v1_trap_pdu
  simp [h1, h2, h3, h4, h5, h6]

/-- Witness for the amended C9 at the trap body with generic-trap 256. -/
theorem c9_witness :
    parse_snmp_v1_trap_pdu
      [6, 1, 43, 64, 4, 127, 0, 0, 1, 2, 2, 1, 0, 2, 1, 0, 67, 1, 0, 48, 0] =
      .ok [] (.trapV1 ⟨[1, 3], .iPv4 127 0 0 1, ⟨256 % 256⟩, 0, 0, []⟩) :=
  c9_generic_trap_truncated _ _ _ _ _ _ 256 _ 0 _ 0 _ []
    rfl rfl rfl rfl rfl rfl

/-! ## Claim C7 -/

/-- C7 counterexample: the VarBind List 30 09 30 05 06 01 2b 05 00
00 00 carries one well-formed VarBind followed by two trailing bytes
inside the list body; the decoder succeeds (discarding the trailing
bytes) while the claim requires failure. -/
theorem c7_counterexample :
    parse_varbind_list [48, 9, 48, 5, 6, 1, 43, 5, 0, 0, 0] =
      .ok [] [⟨[1, 3], .empty⟩] := rfl

/-- C7 amended: trailing bytes inside the VarBind List SEQUENCE body
after the last well-formed VarBind are discarded, not rejected: if the
body consists of one VarBind followed by bytes on which the VarBind
parser fails, the list parser succeeds with exactly that VarBind. -/
theorem c7_trailing_bytes_ignored (i rem : Bytes) (v : SnmpVariable)
    (hlen : i.length < 128)
    (hv : parse_varbind i = .ok rem v)
    (hstop : (parse_varbind rem).isOk = false) :
    parse_varbind_list (48 :: i.length :: i) = .ok [] [v] := by
  obtain ⟨x, t, rfl⟩ : ∃ x t, i = x :: t := by
    cases i with
    | nil =>
      rw [show parse_varbind [] = .fail .incomplete from rfl] at hv
      cases hv
    | cons x t => exact ⟨x, t, rfl⟩
  obtain ⟨e, he⟩ : ∃ e, parse_varbind rem = .fail e := by
    cases h : parse_varbind rem with
    | ok r v2 => rw [h] at hstop; simp [PR.isOk] at hstop
    | fail e => exact ⟨e, rfl⟩
  have h128 : t.length + 1 < 128 := by simpa using hlen
  have hread : readHeader (48 :: (x :: t).length :: (x :: t)) =
      .ok (x :: t) ⟨0, true, 16, (x :: t).length⟩ := by
    simp [readHeader, h128]
  have hmany : many0Varbind (t.length + 1 + 1) (x :: t) = ([v], rem) := by
    simp [many0Varbind, hv, he]
  unfold parse_varbind_list parseDerStructSeq
  rw [hread]
  simp [hmany]

/-- Witness for the amended C7: one VarBind followed by the trailing
garbage 05 01 09. -/
theorem c7_witness :
    parse_varbind_list [48, 10, 48, 5, 6, 1, 43, 5, 0, 5, 1, 9] =
      .ok [] [⟨[1, 3], .empty⟩] :=
  c7_trailing_bytes_ignored [48, 5, 6, 1, 43, 5, 0, 5, 1, 9] [5, 1, 9]
    ⟨[1, 3], .empty⟩ (by decide) rfl rfl

/-! ## Claim C4 -/

/-- C4: security parameters are decoded as UsmSecurityParameters
exactly when the security model is 3: a successful USM parse is
surfaced as USM, a failing USM parse becomes InvalidSecurityModel, and
any other security model returns the raw inner bytes verbatim. -/
theorem c4_security_model_dispatch :
    (∀ i r u, parse_usm_security_parameters i = .ok r u →
      parse_secp i 3 = .ok (.usm u)) ∧
    (∀ i, (parse_usm_security_parameters i).isOk = false →
      parse_secp i 3 = .error .invalidSecurityModel) ∧
    (∀ i m, m ≠ 3 → parse_secp i m = .ok (.raw i)) := by
  refine ⟨?_, ?_, ?_⟩
  · intro i r u h
    unfold parse_secp
    simp [h]
  · intro i h
    unfold parse_secp
    cases hu : parse_usm_security_parameters i with
    | ok r u => rw [hu] at h; simp [PR.isOk] at h
    | fail e => simp
  · intro i m hm
    unfold parse_secp
    simp [hm]

/-- Witness for C4: a USM blob of empty fields under model 3, a
garbage blob under model 3, and raw bytes under model 0. -/
theorem c4_witness :
    parse_secp [48, 14, 4, 0, 2, 1, 0, 2, 1, 0, 4, 0, 4, 0, 4, 0] 3 =
      .ok (.usm ⟨[], 0, 0, [], [], []⟩) ∧
    parse_secp [] 3 = .error .invalidSecurityModel ∧
    parse_secp [1, 2, 3] 0 = .ok (.raw [1, 2, 3]) :=
  ⟨c4_security_model_dispatch.1 _ [] _ rfl,
   c4_security_model_dispatch.2.1 [] rfl,
   c4_security_model_dispatch.2.2 [1, 2, 3] 0 (by decide)⟩

/-! ## Claim C5 -/

/-- C5: when the privacy bit of msg_flags is set, the scoped PDU data
is returned as Encrypted carrying the entire content of the inner
OCTET STRING with no further decoding; when it is clear, the element
is decoded as a plaintext ScopedPdu. -/
theorem c5_encrypted_path_purity (v0 v1 v2 v3 : BerContent) (vers : Nat)
    (sp : Bytes) (hd : HeaderData)
    (hvers : v0.as_u32 = some vers) (hsp : v2.as_slice = some sp)
    (hhd : HeaderData.from_der v1 = .ok hd) :
    (hd.is_encrypted = true → ∀ s, v3 = .octetString s →
      SnmpV3Message.from_der (.seq [v0, v1, v2, v3]) =
        .ok ([], ⟨vers, hd, sp, .encrypted s⟩)) ∧
    (hd.is_encrypted = false → ∀ spd, ScopedPduData.from_der v3 = .ok spd →
      SnmpV3Message.from_der (.seq [v0, v1, v2, v3]) =
        .ok ([], ⟨vers, hd, sp, spd⟩)) := by
  constructor
  · intro henc s hs
    subst hs
    have h3 : (BerContent.octetString s).as_slice = some s := rfl
    unfold SnmpV3Message.from_der
    simp [hvers, hhd, hsp, henc, h3]
  · intro henc spd hspd
    unfold SnmpV3Message.from_der
    simp [hvers, hhd, hsp, henc, hspd]

/-- Witness for C5 on a message with the privacy bit set. -/
theorem c5_witness :
    SnmpV3Message.from_der
      (.seq [.integer [3],
             .seq [.integer [1], .integer [2], .octetString [2], .integer [0]],
             .octetString [8], .octetString [9, 9]]) =
      .ok ([], ⟨3, ⟨1, 2, 2, 0⟩, [8], .encrypted [9, 9]⟩) :=
  (c5_encrypted_path_purity (.integer [3])
      (.seq [.integer [1], .integer [2], .octetString [2], .integer [0]])
      (.octetString [8]) (.octetString [9, 9]) 3 [8] ⟨1, 2, 2, 0⟩ rfl rfl rfl).1
    rfl [9, 9] rfl

/-! ## Claim C2 -/

/-- If parseDerStructSeq succeeds, the body parser succeeded with the
same value on the sequence content. -/
theorem parseDerStructSeq_ok {α : Type} {i r : Bytes} {f : Bytes → PR α} {v : α}
    (h : parseDerStructSeq i f = .ok r v) :
    ∃ body r2, f body = .ok r2 v := by
  unfold parseDerStructSeq at h
  repeat' split at h
  any_goals cases h
  · rename_i heq
    exact ⟨_, _, heq⟩

/-- If the v1 message body parser succeeds, the stored version is 0
(the custom_check rejects anything else). -/
theorem parse_snmp_v1_content_version (body r : Bytes) (m : SnmpMessage)
    (h : parse_snmp_v1_content body = .ok r m) : m.version = 0 := by
  unfold parse_snmp_v1_content at h
  repeat' split at h
  any_goals cases h
  simp_all

/-- If the v2c message body parser succeeds, the stored version is 1. -/
theorem parse_snmp_v2c_content_version (body r : Bytes) (m : SnmpMessage)
    (h : parse_snmp_v2c_content body = .ok r m) : m.version = 1 := by
  unfold parse_snmp_v2c_content at h
  repeat' split at h
  any_goals cases h
  simp_all

/-- A well-formed SNMPv3 message whose version byte is b: the header
carries msg_flags 2 (privacy bit), so the data is the Encrypted path. -/
def c2_v3_input (b : Nat) : Bytes :=
  [48, 21, 2, 1, b, 48, 12, 2, 1, 0, 2, 1, 0, 4, 1, 2, 2, 1, 0, 4, 0, 4, 0]

/-- C2 counterexample: parse_snmp_v3 succeeds on a well-formed v3
message whose version integer is 7, while the claim requires failure
for any version other than 3. -/
theorem c2_counterexample :
    parse_snmp_v3 (c2_v3_input 7) = .ok [] ⟨7, ⟨0, 0, 2, 0⟩, [], .encrypted []⟩ ∧
    (7 : Nat) ≠ 3 :=
  ⟨rfl, by decide⟩

/-- C2 amended: parse_snmp_v1 succeeds only with decoded version 0 and
fails on any other decoded version; parse_snmp_v2c succeeds only with
decoded version 1 and fails on any other decoded version; parse_snmp_v3
does not gate on the version integer at all and accepts every version
byte. -/
theorem c2_version_gating_amended :
    (∀ i r m, parse_snmp_v1 i = .ok r m → m.version = 0) ∧
    (∀ body r1 ver, parse_ber_u32 body = .ok r1 ver → ver ≠ 0 →
      parse_snmp_v1_content body = .fail .berValueError) ∧
    (∀ i r m, parse_snmp_v2c i = .ok r m → m.version = 1) ∧
    (∀ body r1 ver, parse_ber_u32 body = .ok r1 ver → ver ≠ 1 →
      parse_snmp_v2c_content body = .fail .berValueError) ∧
    (∀ b, b < 256 →
      parse_snmp_v3 (c2_v3_input b) = .ok [] ⟨b, ⟨0, 0, 2, 0⟩, [], .encrypted []⟩) := by
  refine ⟨?_, ?_, ?_, ?_, ?_⟩
  · intro i r m h
    unfold parse_snmp_v1 at h
    cases hin : parseDerStructSeq i parse_snmp_v1_content with
    | fail e => rw [hin] at h; cases h
    | ok r0 m0 =>
      rw [hin] at h
      simp only [upgradeBer, SR.ok.injEq] at h
      obtain ⟨hr, hm⟩ := h
      subst hm
      obtain ⟨body, r2, hb⟩ := parseDerStructSeq_ok hin
      exact parse_snmp_v1_content_version body r2 m0 hb
  · intro body r1 ver hv hne
    unfold parse_snmp_v1_content
    simp [hv, hne]
  · intro i r m h
    unfold parse_snmp_v2c at h
    cases hin : parseDerStructSeq i parse_snmp_v2c_content with
    | fail e => rw [hin] at h; cases h
    | ok r0 m0 =>
      rw [hin] at h
      simp only [upgradeBer, SR.ok.injEq] at h
      obtain ⟨hr, hm⟩ := h
      subst hm
      obtain ⟨body, r2, hb⟩ := parseDerStructSeq_ok hin
      exact parse_snmp_v2c_content_version body r2 m0 hb
  · intro body r1 ver hv hne
    unfold parse_snmp_v2c_content
    simp [hv, hne]
  · intro b hb
    have hb32 : b < 4294967296 := by omega
    unfold c2_v3_input parse_snmp_v3
    simp [readHeader, parseDerIntegerRaw, parse_snmp_v3_headerdata,
      parseDerOctetString, parseDerAny, berReadContentAs, berReadPrimContent,
      SnmpV3Message.from_der, HeaderData.from_der, ScopedPduData.from_der,
      BerContent.as_u32, BerContent.as_slice, rawAsU32, bytesToNat,
      HeaderData.is_encrypted, hb32]

/-- Witness for the amended C2: the v1 success direction at a minimal
v1 GetRequest, the fails-otherwise directions at decoded versions 5
and 0, and the v3 family at version byte 200. -/
theorem c2_witness :
    SnmpMessage.version ⟨0, [], .generic ⟨⟨0⟩, 0, ⟨0⟩, 0, []⟩⟩ = 0 ∧
    parse_snmp_v1_content [2, 1, 5, 4, 0, 160, 0] = .fail .berValueError ∧
    parse_snmp_v2c_content [2, 1, 0, 4, 0, 160, 0] = .fail .berValueError ∧
    parse_snmp_v3 (c2_v3_input 200) = .ok [] ⟨200, ⟨0, 0, 2, 0⟩, [], .encrypted []⟩ :=
  ⟨c2_version_gating_amended.1
      [48, 18, 2, 1, 0, 4, 0, 160, 11, 2, 1, 0, 2, 1, 0, 2, 1, 0, 48, 0] [] _ rfl,
    c2_version_gating_amended.2.1 [2, 1, 5, 4, 0, 160, 0] [4, 0, 160, 0] 5 rfl (by decide),
    c2_version_gating_amended.2.2.2.1 [2, 1, 0, 4, 0, 160, 0] [4, 0, 160, 0] 0 rfl (by decide),
    c2_version_gating_amended.2.2.2.2 200 (by decide)⟩

end SnmpSpec
